import Mathlib

/-!
Shallow embedding of the movie-search repository's core:
the Catalog Service (`MovieService` in `src/frontend/src/hooks/useMovies.ts`),
the Favorites Store (`FileFavoritesAdapter` in `src/unnamed/part_002`),
the Search Gateway (`OmdbAdapter` in
`src/backend/src/infrastructure/omdb-adapter/omdb.adapter.ts`) and the
`CreateMovieDto` boundary (`src/backend/src/application/rest-api-adapter/dto/movie.dto.ts`).

JavaScript strings are `String`; fields that may be absent on a runtime JS
object (`year?`, `poster?`, `isFavorite?`) are `Option`s.  JS `number`
arguments (page, pageSize) are rationals, so that the source's
`Number.isInteger` check is representable (`den = 1`).  JS string truthiness
(`!s`, `s || d`) is embedded explicitly.  Thrown exceptions become `Except`.
-/

deriving instance DecidableEq for Except

namespace MovieSearch

/-- JS `s.toLowerCase()` (ASCII): lower-case every character.  Defined over
the character list so that it computes by kernel reduction. -/
def jsToLower (s : String) : String :=
  ⟨s.data.map Char.toLower⟩

/-- JS `s.trim()`: strip leading and trailing whitespace.  Defined over the
character list so that it computes by kernel reduction. -/
def jsTrim (s : String) : String :=
  ⟨((s.data.dropWhile Char.isWhitespace).reverse.dropWhile Char.isWhitespace).reverse⟩

/-- Domain model `Movie` (`movie.model.ts`): `year`, `poster` and
`isFavorite` may be absent on a runtime object, hence `Option`. -/
structure Movie where
  title : String
  imdbID : String
  year : Option String := none
  poster : Option String := none
  isFavorite : Option Bool := none
deriving DecidableEq, Repr

/-- JS `v || d` for an optional string: `undefined` and `""` are falsy. -/
def jsOrString (v : Option String) (d : String) : String :=
  match v with
  | none => d
  | some s => if s = "" then d else s

/-- JS truthiness of an optional string (`undefined` and `""` are falsy). -/
def jsTruthyStr (v : Option String) : Bool :=
  match v with
  | none => false
  | some s => s ≠ ""

/-- The comparator used by the Favorites Store:
`m.imdbID.toLowerCase() === imdbID.toLowerCase()`. -/
def keyMatch (m : Movie) (imdbID : String) : Bool :=
  jsToLower m.imdbID == jsToLower imdbID

/-! ### Favorites Store (`FileFavoritesAdapter`, `src/unnamed/part_002`)

The adapter reloads the file before every operation and persists after every
mutation, so between operations its state is exactly the persisted list of
movies.  We model the state as that `List Movie`; mutating operations return
the new state. -/

/-- `FileFavoritesAdapter.findByImdbId`: first case-insensitive match. -/
def findByImdbId (favorites : List Movie) (imdbID : String) : Option Movie :=
  favorites.find? (fun m => keyMatch m imdbID)

/-- `FileFavoritesAdapter.exists`: `findByImdbId` returned a movie. -/
def existsFav (favorites : List Movie) (imdbID : String) : Bool :=
  (findByImdbId favorites imdbID).isSome

/-- `FileFavoritesAdapter.save`: push the movie and return it. -/
def save (favorites : List Movie) (movie : Movie) : Movie × List Movie :=
  (movie, favorites ++ [movie])

/-- `FileFavoritesAdapter.remove`: `findIndex` on the case-insensitive
comparator, then `splice(index, 1)`; `undefined` when there is no match. -/
def removeStore (favorites : List Movie) (imdbID : String) :
    Option Movie × List Movie :=
  match favorites.findIdx? (fun m => keyMatch m imdbID) with
  | none => (none, favorites)
  | some index => (favorites[index]?, favorites.eraseIdx index)

/-- `FileFavoritesAdapter.count`. -/
def countFav (favorites : List Movie) : Nat :=
  favorites.length

/-! ### Domain exceptions (`domain.exceptions.ts`)

`searchQueryRequired`, `invalidPagination` and `invalidMovieData` all extend
`BadRequestException` — these are the spec's `ValidationError`. -/

inductive DomainError
  | searchQueryRequired
  | invalidPagination
  | invalidMovieData
  | movieAlreadyExists
  | movieNotFound
deriving DecidableEq, Repr

/-- The errors that derive from `BadRequestException` in
`domain.exceptions.ts`, i.e. the spec's `ValidationError`. -/
def DomainError.isValidationError : DomainError → Bool
  | .searchQueryRequired => true
  | .invalidPagination => true
  | .invalidMovieData => true
  | _ => false

/-- `MovieSearchResult` (`movie.model.ts`): `totalResults` is a string. -/
structure MovieSearchResult where
  movies : List Movie
  totalResults : String
deriving DecidableEq, Repr

/-- `FavoritesList` as actually built by `MovieService.getFavorites`:
`totalResults` is the numeric collection size, `currentPage` the page
argument (a JS number, embedded as `ℚ`). -/
structure FavoritesList where
  favorites : List Movie
  count : Nat
  totalResults : Nat
  currentPage : ℚ
  totalPages : Nat
deriving DecidableEq, Repr

/-! ### Catalog Service (`MovieService`, `src/frontend/src/hooks/useMovies.ts`) -/

/-- `MovieService.searchMovies`.  The Search Gateway is abstracted as a
function from (trimmed title, page) to its `MovieSearchResult`. -/
def searchMovies (favorites : List Movie)
    (gateway : String → ℚ → MovieSearchResult)
    (title : String) (page : ℚ) : Except DomainError MovieSearchResult :=
  if title = "" ∨ jsTrim title = "" then
    .error .searchQueryRequired
  else if page < 1 ∨ page.den ≠ 1 then
    .error .invalidPagination
  else
    let searchResult := gateway (jsTrim title) page
    let enrichedMovies := searchResult.movies.map fun movie =>
      { movie with isFavorite := some (existsFav favorites movie.imdbID) }
    .ok { movies := enrichedMovies, totalResults := searchResult.totalResults }

/-- The record `movieToSave` built by `MovieService.addToFavorites`:
`title` and `imdbID` trimmed, `year`/`poster` as given, no `isFavorite`. -/
def movieToSave (movie : Movie) : Movie :=
  { title := jsTrim movie.title
    imdbID := jsTrim movie.imdbID
    year := movie.year
    poster := movie.poster
    isFavorite := none }

/-- `MovieService.addToFavorites`.  Note: the validation checks truthiness of
the raw `imdbID`/`title` (empty string is the only falsy string) and the
duplicate check runs `exists` on the *untrimmed* `imdbID`, while the record
saved carries the *trimmed* `imdbID`. -/
def addToFavorites (favorites : List Movie) (movie : Movie) :
    Except DomainError (Movie × List Movie) :=
  if movie.imdbID = "" ∨ movie.title = "" then
    .error .invalidMovieData
  else if existsFav favorites movie.imdbID then
    .error .movieAlreadyExists
  else
    .ok (save favorites (movieToSave movie))

/-- `MovieService.removeFromFavorites`. -/
def removeFromFavorites (favorites : List Movie) (imdbID : String) :
    Except DomainError (Movie × List Movie) :=
  if imdbID = "" ∨ jsTrim imdbID = "" then
    .error .invalidMovieData
  else
    match removeStore favorites (jsTrim imdbID) with
    | (none, _) => .error .movieNotFound
    | (some removed, rest) => .ok (removed, rest)

/-- `MovieService.getFavorites`.  `page` and `pageSize` are JS numbers
(rationals here); on the valid path they are positive integers and the
slice arithmetic happens on their natural-number values. -/
def getFavorites (favorites : List Movie) (page pageSize : ℚ) :
    Except DomainError FavoritesList :=
  if page < 1 ∨ page.den ≠ 1 then
    .error .invalidPagination
  else if pageSize < 1 ∨ pageSize > 100 ∨ pageSize.den ≠ 1 then
    .error .invalidPagination
  else
    let totalCount := favorites.length
    if totalCount = 0 then
      .ok { favorites := [], count := 0, totalResults := 0
            currentPage := page, totalPages := 0 }
    else
      let p : Nat := page.num.toNat
      let ps : Nat := pageSize.num.toNat
      let startIndex := (p - 1) * ps
      let paginated := (favorites.drop startIndex).take ps
      .ok { favorites := paginated
            count := paginated.length
            totalResults := totalCount
            currentPage := page
            totalPages := (totalCount + ps - 1) / ps }

/-! ### Search Gateway (`OmdbAdapter`, `omdb.adapter.ts`) -/

/-- Raw OMDb search-hit shape (`OmdbMovie` in `omdb.adapter.ts`). -/
structure OmdbMovie where
  Title : String
  Year : String
  imdbID : String
  type : String
  Poster : String
deriving DecidableEq, Repr

/-- Raw OMDb response shape (`OmdbSearchResponse` in `omdb.adapter.ts`):
`Search`, `totalResults` and `Error` are optional fields. -/
structure OmdbSearchResponse where
  Search : Option (List OmdbMovie) := none
  totalResults : Option String := none
  Response : String
  Error : Option String := none
deriving DecidableEq, Repr

/-- The outcome of the `axios.get` call as `OmdbAdapter.handleError`
inspects it: an `AxiosError` carries an optional `code` and an optional
response `status`; anything else is a non-Axios failure. -/
inductive FetchError
  | axiosError (code : Option String) (status : Option Nat)
  | otherError
deriving DecidableEq, Repr

/-- The three exception kinds thrown by the OMDb adapter
(`domain.exceptions.ts`): gateway timeout, invalid credential, generic
external failure. -/
inductive GatewayError
  | externalApiTimeout
  | invalidApiKey
  | externalApiFailure
deriving DecidableEq, Repr

/-- `OmdbAdapter.handleError`: `ECONNABORTED` → timeout, HTTP 401 →
invalid key, anything else → generic external failure. -/
def handleError : FetchError → GatewayError
  | .axiosError code status =>
    if code = some "ECONNABORTED" then .externalApiTimeout
    else if status = some 401 then .invalidApiKey
    else .externalApiFailure
  | .otherError => .externalApiFailure

/-- `OmdbAdapter.search`, given the outcome of the HTTP call.  A response
with `Response === "False"` or a truthy `Error` is "no results" and maps to
an empty result; otherwise the provider fields are translated to the domain
shape (`Search || []`, `totalResults || "0"`). -/
def omdbSearch (outcome : Except FetchError OmdbSearchResponse) :
    Except GatewayError MovieSearchResult :=
  match outcome with
  | .error e => .error (handleError e)
  | .ok data =>
    if data.Response = "False" ∨ jsTruthyStr data.Error then
      .ok { movies := [], totalResults := "0" }
    else
      .ok { movies := (data.Search.getD []).map fun movie =>
              { title := movie.Title
                imdbID := movie.imdbID
                year := some movie.Year
                poster := some movie.Poster
                isFavorite := none }
            totalResults := jsOrString data.totalResults "0" }

/-! ### Durable-medium load (`FileFavoritesAdapter.loadFromFile`)

`loadFromFile` distinguishes: file absent; contents that `JSON.parse`
rejects (the `catch` branch); parsed JSON that is not an array; and a
parsed array, whose items are kept exactly when they are objects with
string `imdbID` and `title` fields (i.e. well-formed movie records). -/

/-- An element of a parsed JSON array: either a well-formed movie record or
anything else. -/
inductive StoredItem
  | valid (movie : Movie)
  | invalid
deriving DecidableEq, Repr

/-- The durable medium as `loadFromFile` case-splits on it. -/
inductive FileState
  | absent
  | unparseable
  | parsedNonArray
  | parsedArray (items : List StoredItem)
deriving DecidableEq, Repr

/-- `FileFavoritesAdapter.loadFromFile`: returns the in-memory favorites
list it produces together with whether it wrote the file (`saveToFile`)
during the load.  Only the file-absent branch writes; the malformed
branches (parse failure, non-array, junk items in an array) never do. -/
def loadFromFile : FileState → List Movie × Bool
  | .absent => ([], true)
  | .unparseable => ([], false)
  | .parsedNonArray => ([], false)
  | .parsedArray items =>
    (items.filterMap fun it =>
      match it with
      | .valid m => some m
      | .invalid => none, false)

/-! ### REST boundary (`CreateMovieDto`, `movie.dto.ts`) -/

/-- `CreateMovieDto` after class-validator checks: `title` and `imdbID` are
present strings, `year`/`poster`/`isFavorite` optional. -/
structure CreateMovieDto where
  title : String
  imdbID : String
  year : Option String := none
  poster : Option String := none
  isFavorite : Option Bool := none
deriving DecidableEq, Repr

/-- `CreateMovieDto.toDomain`: absent `year`/`poster` become `""`
(`this.year || ""`). -/
def toDomain (dto : CreateMovieDto) : Movie :=
  { title := dto.title
    imdbID := dto.imdbID
    year := some (jsOrString dto.year "")
    poster := some (jsOrString dto.poster "")
    isFavorite := dto.isFavorite }

/-! ### Sequences of Catalog Service mutations (for the uniqueness invariant) -/

/-- One mutating Catalog Service call. -/
inductive Op
  | add (movie : Movie)
  | rem (imdbID : String)
deriving DecidableEq, Repr

/-- Run one operation against the favorites collection; a call that throws
leaves the collection unchanged. -/
def applyOp (favorites : List Movie) : Op → List Movie
  | .add movie =>
    match addToFavorites favorites movie with
    | .ok (_, s) => s
    | .error _ => favorites
  | .rem imdbID =>
    match removeFromFavorites favorites imdbID with
    | .ok (_, s) => s
    | .error _ => favorites

/-- Run a sequence of mutating operations starting from the empty
collection. -/
def runOps (ops : List Op) : List Movie :=
  ops.foldl applyOp []

/-- The case-insensitive key of a stored movie. -/
def keyOf (m : Movie) : String :=
  jsToLower m.imdbID

/-- "At most one entry per `imdbID`, case-insensitively". -/
def uniqueByImdbId (favorites : List Movie) : Prop :=
  (favorites.map keyOf).Nodup

/-- An operation whose argument is already normalized: an add whose
`imdbID` equals its trimmed form (removals are unrestricted). -/
def opNormalized : Op → Bool
  | .add movie => jsTrim movie.imdbID == movie.imdbID
  | .rem _ => true

/-! ## Helper lemmas -/

lemma jsTrim_empty : jsTrim "" = "" := rfl

lemma existsFav_eq_true_iff {favorites : List Movie} {imdbID : String} :
    existsFav favorites imdbID = true ↔
      ∃ m ∈ favorites, keyMatch m imdbID = true := by
  unfold existsFav findByImdbId
  constructor
  · intro h
    rcases List.find?_isSome.mp h with ⟨x, hx1, hx2⟩
    exact ⟨x, hx1, hx2⟩
  · rintro ⟨m, hmem, hmatch⟩
    have h' : ((favorites.find? (fun m => keyMatch m imdbID)).isSome : Prop) :=
      List.find?_isSome.mpr ⟨m, hmem, hmatch⟩
    exact h'

lemma existsFav_eq_false_iff {favorites : List Movie} {imdbID : String} :
    existsFav favorites imdbID = false ↔
      ∀ m ∈ favorites, keyMatch m imdbID = false := by
  rw [← Bool.not_eq_true, existsFav_eq_true_iff]
  push_neg
  simp

lemma addToFavorites_ok_iff {favorites : List Movie} {movie saved : Movie}
    {s : List Movie} :
    addToFavorites favorites movie = .ok (saved, s) ↔
      movie.imdbID ≠ "" ∧ movie.title ≠ "" ∧
      existsFav favorites movie.imdbID = false ∧
      saved = movieToSave movie ∧ s = favorites ++ [movieToSave movie] := by
  unfold addToFavorites save
  split_ifs with h1 h2
  · constructor
    · intro h; simp at h
    · rintro ⟨hi, ht, -⟩
      rcases h1 with h | h
      exacts [absurd h hi, absurd h ht]
  · constructor
    · intro h; simp at h
    · rintro ⟨-, -, hex, -⟩
      rw [h2] at hex; cases hex
  · push_neg at h1
    rw [Bool.not_eq_true] at h2
    simp only [Except.ok.injEq, Prod.mk.injEq]
    constructor
    · rintro ⟨rfl, rfl⟩
      exact ⟨h1.1, h1.2, h2, rfl, rfl⟩
    · rintro ⟨-, -, -, rfl, rfl⟩
      exact ⟨rfl, rfl⟩

lemma existsFav_append_singleton (favorites : List Movie) (n : Movie)
    (imdbID : String) :
    existsFav (favorites ++ [n]) imdbID =
      (existsFav favorites imdbID || keyMatch n imdbID) := by
  unfold existsFav findByImdbId
  rw [List.find?_append]
  cases h : favorites.find? (fun m => keyMatch m imdbID) with
  | none =>
    cases hn : keyMatch n imdbID <;>
      simp [Option.or, List.find?, hn]
  | some m => simp [Option.or]

lemma removeStore_eq_some {favorites : List Movie} {imdbID : String}
    {removed : Movie} {rest : List Movie}
    (h : removeStore favorites imdbID = (some removed, rest)) :
    ∃ i, favorites.findIdx? (fun m => keyMatch m imdbID) = some i ∧
      favorites[i]? = some removed ∧ rest = favorites.eraseIdx i := by
  unfold removeStore at h
  cases hidx : favorites.findIdx? (fun m => keyMatch m imdbID) with
  | none => rw [hidx] at h; simp at h
  | some i =>
    rw [hidx] at h
    simp only [Prod.mk.injEq] at h
    exact ⟨i, rfl, h.1, h.2.symm⟩

lemma removeFromFavorites_ok {favorites : List Movie} {imdbID : String}
    {removed : Movie} {rest : List Movie}
    (h : removeFromFavorites favorites imdbID = .ok (removed, rest)) :
    jsTrim imdbID ≠ "" ∧
      removeStore favorites (jsTrim imdbID) = (some removed, rest) := by
  by_cases hguard : (imdbID = "" ∨ jsTrim imdbID = "")
  · unfold removeFromFavorites at h
    rw [if_pos hguard] at h
    simp at h
  · unfold removeFromFavorites at h
    rw [if_neg hguard] at h
    cases hrs : removeStore favorites (jsTrim imdbID) with
    | mk fst snd =>
      rw [hrs] at h
      cases fst with
      | none => simp at h
      | some r =>
        simp only [Except.ok.injEq, Prod.mk.injEq] at h
        push_neg at hguard
        exact ⟨hguard.2, by rw [h.1, h.2]⟩

lemma keyMatch_eq_true_iff {m : Movie} {imdbID : String} :
    keyMatch m imdbID = true ↔ jsToLower m.imdbID = jsToLower imdbID := by
  unfold keyMatch
  exact beq_iff_eq

lemma keyMatch_movieToSave_self {movie : Movie}
    (htrim : jsTrim movie.imdbID = movie.imdbID) :
    keyMatch (movieToSave movie) movie.imdbID = true :=
  keyMatch_eq_true_iff.mpr
    (show jsToLower (jsTrim movie.imdbID) = jsToLower movie.imdbID by rw [htrim])

lemma removeStore_append_of_not_found {favorites : List Movie} {n : Movie}
    {imdbID : String}
    (hno : ∀ x ∈ favorites, keyMatch x imdbID = false)
    (hm : keyMatch n imdbID = true) :
    removeStore (favorites ++ [n]) imdbID = (some n, favorites) := by
  unfold removeStore
  rw [List.findIdx?_append, List.findIdx?_eq_none_iff.mpr hno]
  simp only [Option.or, List.findIdx?_cons, hm, if_true, Option.map_some',
    Nat.zero_add]
  rw [List.getElem?_concat_length,
    List.eraseIdx_append_of_length_le (Nat.le_refl _)]
  simp

lemma removeFromFavorites_notFound {favorites : List Movie} {imdbID : String}
    (h : jsTrim imdbID ≠ "")
    (hno : ∀ m ∈ favorites, keyMatch m (jsTrim imdbID) = false) :
    removeFromFavorites favorites imdbID = .error .movieNotFound := by
  unfold removeFromFavorites
  rw [if_neg (by
    rintro (rfl | hc)
    · exact h rfl
    · exact h hc)]
  unfold removeStore
  rw [List.findIdx?_eq_none_iff.mpr hno]

lemma removeStore_of_mem {favorites : List Movie} {imdbID : String}
    (m : Movie) (hmem : m ∈ favorites) (hmatch : keyMatch m imdbID = true) :
    ∃ removed rest, removeStore favorites imdbID = (some removed, rest) ∧
      removed ∈ favorites ∧ keyMatch removed imdbID = true := by
  have hsome := List.findIdx?_eq_some_of_exists
    (⟨m, hmem, hmatch⟩ : ∃ x, x ∈ favorites ∧ (fun m => keyMatch m imdbID) x)
  obtain ⟨hlt, hp, -⟩ := List.findIdx?_eq_some_iff_getElem.mp hsome
  refine ⟨favorites.get ⟨favorites.findIdx (fun m => keyMatch m imdbID), hlt⟩,
    favorites.eraseIdx (favorites.findIdx (fun m => keyMatch m imdbID)),
    ?_, by exact List.getElem_mem hlt, hp⟩
  unfold removeStore
  rw [hsome]
  show (favorites[favorites.findIdx (fun m => keyMatch m imdbID)]?,
    favorites.eraseIdx (favorites.findIdx (fun m => keyMatch m imdbID))) = _
  rw [List.getElem?_eq_getElem hlt]
  rfl

lemma uniqueByImdbId_applyOp {favorites : List Movie} {op : Op}
    (hop : opNormalized op = true) (hinv : uniqueByImdbId favorites) :
    uniqueByImdbId (applyOp favorites op) := by
  cases op with
  | add movie =>
    cases hadd : addToFavorites favorites movie with
    | error e => simpa only [applyOp, hadd] using hinv
    | ok pr =>
      obtain ⟨saved, s⟩ := pr
      simp only [applyOp, hadd]
      rw [addToFavorites_ok_iff] at hadd
      obtain ⟨-, -, hex, -, hs⟩ := hadd
      subst hs
      have htrim : jsTrim movie.imdbID = movie.imdbID := by
        have h' := hop
        unfold opNormalized at h'
        exact beq_iff_eq.mp h'
      unfold uniqueByImdbId at hinv ⊢
      rw [List.map_append, List.nodup_append]
      refine ⟨hinv, List.nodup_singleton _, ?_⟩
      intro a ha hb
      simp only [List.map_cons, List.map_nil, List.mem_singleton] at hb
      rcases List.mem_map.mp ha with ⟨x, hx, rfl⟩
      have hkey : keyOf (movieToSave movie) = jsToLower movie.imdbID := by
        unfold keyOf movieToSave
        simp only
        rw [htrim]
      have hx' := existsFav_eq_false_iff.mp hex x hx
      have hcontra : keyMatch x movie.imdbID = true :=
        keyMatch_eq_true_iff.mpr (hb.trans hkey)
      rw [hx'] at hcontra
      cases hcontra
  | rem imdbID =>
    cases hrem : removeFromFavorites favorites imdbID with
    | error e => simpa only [applyOp, hrem] using hinv
    | ok pr =>
      obtain ⟨removed, rest⟩ := pr
      simp only [applyOp, hrem]
      obtain ⟨-, hrs⟩ := removeFromFavorites_ok hrem
      obtain ⟨i, -, -, hrest⟩ := removeStore_eq_some hrs
      subst hrest
      unfold uniqueByImdbId at hinv ⊢
      exact List.Nodup.sublist ((List.eraseIdx_sublist favorites i).map keyOf) hinv

lemma uniqueByImdbId_foldl : ∀ (ops : List Op) (start : List Movie),
    (∀ op ∈ ops, opNormalized op = true) → uniqueByImdbId start →
    uniqueByImdbId (ops.foldl applyOp start)
  | [], _, _, hs => hs
  | op :: ops, start, hall, hs => by
    rw [List.foldl_cons]
    exact uniqueByImdbId_foldl ops _
      (fun o ho => hall o (List.mem_cons_of_mem _ ho))
      (uniqueByImdbId_applyOp (hall op (List.mem_cons_self _ _)) hs)

lemma ceilDiv_cast (a b : ℕ) (hb : 0 < b) :
    (((a + b - 1) / b : ℕ) : ℤ) = ⌈(a : ℚ) / (b : ℚ)⌉ := by
  have hbQ : (0 : ℚ) < (b : ℚ) := by exact_mod_cast hb
  rcases Nat.eq_zero_or_pos a with rfl | ha
  · have h0 : (0 + b - 1) / b = 0 := by
      apply Nat.div_eq_of_lt
      omega
    rw [h0]
    simp
  · symm
    rw [Int.ceil_eq_iff]
    have hdm := Nat.div_add_mod (a + b - 1) b
    have hmod : (a + b - 1) % b < b := Nat.mod_lt _ hb
    have hq1 : 1 ≤ (a + b - 1) / b := by
      rw [Nat.one_le_div_iff hb]
      omega
    have hle : a ≤ ((a + b - 1) / b) * b := by
      rw [Nat.mul_comm]
      omega
    have hlt : (((a + b - 1) / b) - 1) * b < a := by
      rw [Nat.sub_mul, Nat.one_mul, Nat.mul_comm]
      omega
    constructor
    · rw [lt_div_iff₀ hbQ]
      have hcast := (Nat.cast_lt (α := ℚ)).mpr hlt
      rw [Nat.cast_mul, Nat.cast_sub hq1] at hcast
      push_cast
      push_cast at hcast
      exact hcast
    · rw [div_le_iff₀ hbQ]
      have hcast := (Nat.cast_le (α := ℚ)).mpr hle
      push_cast
      push_cast at hcast
      exact hcast

lemma rat_den_one_cast {q : ℚ} (hd : q.den = 1) (h1 : 1 ≤ q) :
    ((q.num.toNat : ℚ) = q) ∧ 1 ≤ q.num.toNat := by
  have hq0 : (0 : ℚ) ≤ q := le_trans zero_le_one h1
  have hnum : 0 ≤ q.num := Rat.num_nonneg.mpr hq0
  have hcast : ((q.num : ℚ)) = q := by
    conv_rhs => rw [← Rat.num_div_den q]
    rw [hd]
    simp
  have htn : ((q.num.toNat : ℤ)) = q.num := Int.toNat_of_nonneg hnum
  constructor
  · have h2 : ((q.num.toNat : ℚ)) = ((q.num : ℚ)) := by
      exact_mod_cast congrArg (fun z : ℤ => (z : ℚ)) htn
    rw [h2, hcast]
  · have h1' : (1 : ℚ) ≤ (q.num : ℚ) := by
      rw [hcast]
      exact h1
    have h1'' : (1 : ℤ) ≤ q.num := by exact_mod_cast h1'
    omega

/-! ## Claim theorems -/

/-- C1, counterexample.  The claimed invariant fails: `addToFavorites` runs
the duplicate check on the *untrimmed* `imdbID` but saves the trimmed one,
so adding `"tt1"` and then `" tt1"` (leading space) puts two entries with
the same case-insensitive `imdbID` into the collection. -/
theorem c1_counterexample :
    ¬ uniqueByImdbId (runOps
      [Op.add { title := "x", imdbID := "tt1" },
       Op.add { title := "y", imdbID := " tt1" }]) := by
  unfold uniqueByImdbId
  decide

/-- C1, amended: starting from the empty collection, after every sequence
of `addToFavorites`/`removeFromFavorites` operations *in which every added
movie's `imdbID` equals its trimmed form*, the favorites collection
contains at most one entry per `imdbID`, case-insensitively. -/
theorem c1_unique_favorites_normalized (ops : List Op)
    (h : ∀ op ∈ ops, opNormalized op = true) :
    uniqueByImdbId (runOps ops) :=
  uniqueByImdbId_foldl ops [] h (by unfold uniqueByImdbId; simp)

/-- C1, witness: a concrete normalized operation sequence (including a
case-colliding add, which is rejected, and a removal). -/
theorem c1_witness :
    (∀ op ∈ [Op.add { title := "x", imdbID := "tt1" },
             Op.add { title := "y", imdbID := "TT1" },
             Op.rem "tt1"], opNormalized op = true) ∧
    uniqueByImdbId (runOps
      [Op.add { title := "x", imdbID := "tt1" },
       Op.add { title := "y", imdbID := "TT1" },
       Op.rem "tt1"]) :=
  ⟨by decide, c1_unique_favorites_normalized
    [Op.add { title := "x", imdbID := "tt1" },
     Op.add { title := "y", imdbID := "TT1" },
     Op.rem "tt1"] (by decide)⟩

/-- C5, counterexample.  For the valid movie `{title := "x", imdbID := " tt1"}`
(non-empty `imdbID` with a leading space) `addToFavorites` succeeds, yet
`exists(m.imdbID)` is false afterwards, because the stored entry carries the
trimmed `imdbID` which does not match the untrimmed one case-insensitively;
the claimed post-condition fails. -/
theorem c5_counterexample :
    addToFavorites [] { title := "x", imdbID := " tt1" } =
      .ok ({ title := "x", imdbID := "tt1" },
        [{ title := "x", imdbID := "tt1" }]) ∧
    existsFav [{ title := "x", imdbID := "tt1" }] " tt1" = false := by
  decide

/-- C5, amended: for every valid movie whose `imdbID` equals its trimmed
form, after `addToFavorites(m)` succeeds `exists(m.imdbID)` is true, a
second `addToFavorites(m)` fails with the duplicate error, and the failed
call leaves the collection unchanged. -/
theorem c5_add_then_exists_and_duplicate (favorites : List Movie)
    (movie saved : Movie) (s : List Movie)
    (htrim : jsTrim movie.imdbID = movie.imdbID)
    (hok : addToFavorites favorites movie = .ok (saved, s)) :
    existsFav s movie.imdbID = true ∧
    addToFavorites s movie = .error .movieAlreadyExists ∧
    applyOp s (.add movie) = s := by
  rw [addToFavorites_ok_iff] at hok
  obtain ⟨hid, htitle, hex, -, hs⟩ := hok
  subst hs
  have hexs : existsFav (favorites ++ [movieToSave movie]) movie.imdbID = true := by
    rw [existsFav_append_singleton, keyMatch_movieToSave_self htrim, Bool.or_true]
  have hdup : addToFavorites (favorites ++ [movieToSave movie]) movie =
      .error .movieAlreadyExists := by
    unfold addToFavorites
    rw [if_neg (by rintro (hc | hc); exacts [hid hc, htitle hc]), if_pos hexs]
  exact ⟨hexs, hdup, by simp only [applyOp, hdup]⟩

/-- C5, witness: adding `tt1` to the empty collection, then again. -/
theorem c5_witness :
    existsFav [{ title := "x", imdbID := "tt1" }] "tt1" = true ∧
    addToFavorites [{ title := "x", imdbID := "tt1" }]
      { title := "x", imdbID := "tt1" } = .error .movieAlreadyExists ∧
    applyOp [{ title := "x", imdbID := "tt1" }]
      (.add { title := "x", imdbID := "tt1" }) =
      [{ title := "x", imdbID := "tt1" }] :=
  c5_add_then_exists_and_duplicate [] { title := "x", imdbID := "tt1" }
    { title := "x", imdbID := "tt1" } [{ title := "x", imdbID := "tt1" }]
    (by decide) (by decide)

/-- C6, counterexample.  `{title := "new", imdbID := " tt1"}` is valid and
not in the favorites (no entry case-insensitively equals `" tt1"`), yet
add-then-remove returns the *pre-existing* record `{title := "old",
imdbID := "tt1"}` — the store's remove trims the argument and removes the
first case-insensitive match — which is not `m` modulo normalization. -/
theorem c6_counterexample :
    existsFav [{ title := "old", imdbID := "tt1" }] " tt1" = false ∧
    addToFavorites [{ title := "old", imdbID := "tt1" }]
      { title := "new", imdbID := " tt1" } =
      .ok ({ title := "new", imdbID := "tt1" },
        [{ title := "old", imdbID := "tt1" }, { title := "new", imdbID := "tt1" }]) ∧
    removeFromFavorites
      [{ title := "old", imdbID := "tt1" }, { title := "new", imdbID := "tt1" }]
      " tt1" =
      .ok ({ title := "old", imdbID := "tt1" }, [{ title := "new", imdbID := "tt1" }]) ∧
    ({ title := "old", imdbID := "tt1" } : Movie) ≠
      movieToSave { title := "new", imdbID := " tt1" } := by
  decide

/-- C6, amended: for every valid movie whose `imdbID` equals its trimmed
form and which is not already in the favorites, `addToFavorites(m)` then
`removeFromFavorites(m.imdbID)` returns exactly the normalized record
(`m` with `title`/`imdbID` trimmed, no `isFavorite`) and leaves `count()`
at its value from before the add. -/
theorem c6_round_trip (favorites : List Movie) (movie : Movie)
    (htitle : movie.title ≠ "") (hid : movie.imdbID ≠ "")
    (htrim : jsTrim movie.imdbID = movie.imdbID)
    (hnot : existsFav favorites movie.imdbID = false) :
    ∃ saved s s',
      addToFavorites favorites movie = .ok (saved, s) ∧
      removeFromFavorites s movie.imdbID = .ok (movieToSave movie, s') ∧
      countFav s' = countFav favorites := by
  refine ⟨movieToSave movie, favorites ++ [movieToSave movie], favorites,
    addToFavorites_ok_iff.mpr ⟨hid, htitle, hnot, rfl, rfl⟩, ?_, rfl⟩
  unfold removeFromFavorites
  rw [if_neg (by rintro (hc | hc); exacts [hid hc, hid (htrim.symm.trans hc)]),
    htrim,
    removeStore_append_of_not_found (existsFav_eq_false_iff.mp hnot)
      (keyMatch_movieToSave_self htrim)]

/-- C6, witness: round trip of `tt1` starting from the empty collection. -/
theorem c6_witness :
    ∃ saved s s',
      addToFavorites [] { title := "x", imdbID := "tt1" } = .ok (saved, s) ∧
      removeFromFavorites s "tt1" =
        .ok (movieToSave { title := "x", imdbID := "tt1" }, s') ∧
      countFav s' = countFav [] :=
  c6_round_trip [] { title := "x", imdbID := "tt1" }
    (by decide) (by decide) (by decide) (by decide)

/-- C7, counterexample.  The collection is built by adding only `"TT1"`;
the `imdbID` `"tt1"` was never added, yet `removeFromFavorites("tt1")`
succeeds (the store matches case-insensitively) instead of failing with
the not-found error. -/
theorem c7_counterexample :
    addToFavorites [] { title := "A", imdbID := "TT1" } =
      .ok ({ title := "A", imdbID := "TT1" }, [{ title := "A", imdbID := "TT1" }]) ∧
    ("tt1" : String) ≠ "TT1" ∧
    removeFromFavorites [{ title := "A", imdbID := "TT1" }] "tt1" =
      .ok ({ title := "A", imdbID := "TT1" }, []) := by
  decide

/-- C7, amended: `removeFromFavorites(imdbID)` fails with the validation
error when the trimmed `imdbID` is empty; it fails with the not-found
error when *no entry case-insensitively matches the trimmed `imdbID`*;
and when such an entry exists it returns the removed record (a member of
the collection matching the trimmed `imdbID`). -/
theorem c7_remove_spec (favorites : List Movie) (imdbID : String) :
    (jsTrim imdbID = "" →
      removeFromFavorites favorites imdbID = .error .invalidMovieData) ∧
    (jsTrim imdbID ≠ "" →
      (∀ m ∈ favorites, keyMatch m (jsTrim imdbID) = false) →
      removeFromFavorites favorites imdbID = .error .movieNotFound) ∧
    (jsTrim imdbID ≠ "" → ∀ m ∈ favorites, keyMatch m (jsTrim imdbID) = true →
      ∃ removed rest,
        removeFromFavorites favorites imdbID = .ok (removed, rest) ∧
        removed ∈ favorites ∧ keyMatch removed (jsTrim imdbID) = true) := by
  refine ⟨?_, fun h hno => removeFromFavorites_notFound h hno, ?_⟩
  · intro h
    unfold removeFromFavorites
    rw [if_pos (Or.inr h)]
  · intro h m hmem hmatch
    obtain ⟨removed, rest, hrs, hmem', hmatch'⟩ := removeStore_of_mem m hmem hmatch
    refine ⟨removed, rest, ?_, hmem', hmatch'⟩
    unfold removeFromFavorites
    rw [if_neg (by rintro (hc | hc); exacts [h (by rw [hc]; rfl), h hc]), hrs]

/-- C7, witness: the three branches at concrete inputs. -/
theorem c7_witness :
    removeFromFavorites ([] : List Movie) " " = .error .invalidMovieData ∧
    removeFromFavorites ([] : List Movie) "tt9" = .error .movieNotFound ∧
    (∃ removed rest,
      removeFromFavorites [{ title := "A", imdbID := "TT1" }] "tt1" =
        .ok (removed, rest) ∧
      removed ∈ [{ title := "A", imdbID := "TT1" }] ∧
      keyMatch removed (jsTrim "tt1") = true) :=
  ⟨(c7_remove_spec [] " ").1 (by decide),
   (c7_remove_spec [] "tt9").2.1 (by decide) (by decide),
   (c7_remove_spec [{ title := "A", imdbID := "TT1" }] "tt1").2.2 (by decide)
     { title := "A", imdbID := "TT1" } (by decide) (by decide)⟩

/-- C10: a movie whose `title` and `imdbID` are non-empty but whitespace-only
passes `addToFavorites` validation (the check rejects only the empty string,
without trimming first), and the persisted record's `title` and `imdbID` are
the empty string after normalization. -/
theorem c10_whitespace_only_not_rejected :
    addToFavorites [] { title := "   ", imdbID := "  " } =
      .ok ({ title := "", imdbID := "" }, [{ title := "", imdbID := "" }]) := by
  decide

/-- C2: `searchMovies` fails with a validation error when the trimmed title
is empty or the page is not a positive integer; otherwise it returns the
Gateway's movies, each annotated with `isFavorite` equal to the Store's
current `exists(imdbID)`, and the Gateway's `totalResults` unchanged. -/
theorem c2_searchMovies_spec (favorites : List Movie)
    (gateway : String → ℚ → MovieSearchResult) (title : String) (page : ℚ) :
    ((jsTrim title = "" ∨ page < 1 ∨ page.den ≠ 1) →
      ∃ e, searchMovies favorites gateway title page = .error e ∧
        e.isValidationError = true) ∧
    (jsTrim title ≠ "" → 1 ≤ page → page.den = 1 →
      searchMovies favorites gateway title page =
        .ok { movies := (gateway (jsTrim title) page).movies.map fun movie =>
                { movie with isFavorite := some (existsFav favorites movie.imdbID) }
              totalResults := (gateway (jsTrim title) page).totalResults }) := by
  constructor
  · intro h
    by_cases ht : jsTrim title = ""
    · refine ⟨.searchQueryRequired, ?_, rfl⟩
      unfold searchMovies
      rw [if_pos (Or.inr ht)]
    · have hp : page < 1 ∨ page.den ≠ 1 := by
        rcases h with h | h | h
        exacts [absurd h ht, Or.inl h, Or.inr h]
      refine ⟨.invalidPagination, ?_, rfl⟩
      have hguard : ¬(title = "" ∨ jsTrim title = "") := by
        rintro (rfl | hc)
        exacts [ht rfl, ht hc]
      unfold searchMovies
      rw [if_neg hguard, if_pos hp]
  · intro ht hp1 hpd
    have hguard : ¬(title = "" ∨ jsTrim title = "") := by
      rintro (rfl | hc)
      exacts [ht rfl, ht hc]
    have hg2 : ¬(page < 1 ∨ page.den ≠ 1) := by
      push_neg
      exact ⟨hp1, hpd⟩
    unfold searchMovies
    rw [if_neg hguard, if_neg hg2]

/-- C2, witness: the validation branch at `"  "` and the annotation branch
against a one-movie gateway and a one-favorite store. -/
theorem c2_witness :
    (∃ e, searchMovies [] (fun _ _ => { movies := [], totalResults := "0" })
        "  " 1 = .error e ∧ e.isValidationError = true) ∧
    searchMovies [{ title := "B", imdbID := "tt0001" }]
      (fun _ _ => { movies := [{ title := "B", imdbID := "tt0001" },
                               { title := "C", imdbID := "tt0002" }]
                    totalResults := "2" })
      "batman" 1 =
      .ok { movies :=
              ((fun (_ : String) (_ : ℚ) =>
                  ({ movies := [{ title := "B", imdbID := "tt0001" },
                                { title := "C", imdbID := "tt0002" }]
                     totalResults := "2" } : MovieSearchResult)) (jsTrim "batman") 1).movies.map
                fun movie =>
                  { movie with isFavorite := some (existsFav [{ title := "B", imdbID := "tt0001" }] movie.imdbID) }
            totalResults := "2" } :=
  ⟨(c2_searchMovies_spec [] (fun _ _ => { movies := [], totalResults := "0" })
      "  " 1).1 (Or.inl (by decide)),
   (c2_searchMovies_spec [{ title := "B", imdbID := "tt0001" }]
      (fun _ _ => { movies := [{ title := "B", imdbID := "tt0001" },
                               { title := "C", imdbID := "tt0002" }]
                    totalResults := "2" })
      "batman" 1).2 (by decide) (by decide) (by decide)⟩

/-- C3: for every collection and valid `page`/`pageSize`, `getFavorites`
returns the slice `[(page-1)*pageSize, page*pageSize)` of the collection,
its length as `count`, the collection size as `totalResults`, the requested
page as `currentPage`, and `totalPages = ceil(totalResults / pageSize)`
when the collection is non-empty and `0` when it is empty; a page past the
end yields an empty slice with the same metadata and no error. -/
theorem c3_getFavorites_spec (favorites : List Movie) (page pageSize : ℚ)
    (hp1 : 1 ≤ page) (hpd : page.den = 1)
    (hs1 : 1 ≤ pageSize) (hs100 : pageSize ≤ 100) (hsd : pageSize.den = 1) :
    getFavorites favorites page pageSize =
      .ok { favorites := (favorites.drop
              ((page.num.toNat - 1) * pageSize.num.toNat)).take pageSize.num.toNat
            count := ((favorites.drop
              ((page.num.toNat - 1) * pageSize.num.toNat)).take pageSize.num.toNat).length
            totalResults := favorites.length
            currentPage := page
            totalPages :=
              if favorites.length = 0 then 0
              else (⌈(favorites.length : ℚ) / pageSize⌉).toNat } ∧
    (favorites.length ≤ (page.num.toNat - 1) * pageSize.num.toNat →
      (favorites.drop
        ((page.num.toNat - 1) * pageSize.num.toNat)).take pageSize.num.toNat = []) := by
  obtain ⟨hconv, hps1⟩ := rat_den_one_cast hsd hs1
  constructor
  · have hg1 : ¬(page < 1 ∨ page.den ≠ 1) := by
      push_neg
      exact ⟨hp1, hpd⟩
    have hg2 : ¬(pageSize < 1 ∨ pageSize > 100 ∨ pageSize.den ≠ 1) := by
      push_neg
      exact ⟨hs1, hs100, hsd⟩
    unfold getFavorites
    rw [if_neg hg1, if_neg hg2]
    dsimp only
    by_cases hlen : favorites.length = 0
    · obtain rfl := List.length_eq_zero.mp hlen
      simp
    · have hcd := ceilDiv_cast favorites.length pageSize.num.toNat (by omega)
      rw [hconv] at hcd
      have htp : (favorites.length + pageSize.num.toNat - 1) / pageSize.num.toNat =
          (⌈(favorites.length : ℚ) / pageSize⌉).toNat := by
        have h' := congrArg Int.toNat hcd
        rwa [Int.toNat_natCast] at h'
      rw [if_neg hlen, if_neg hlen, htp]
  · intro hbeyond
    rw [List.drop_eq_nil_of_le hbeyond, List.take_nil]

/-- C3, witness: a three-movie collection at `page = 2`, `pageSize = 2`
(the spec's own scenario, second page). -/
theorem c3_witness :
    getFavorites [{ title := "A", imdbID := "a1" }, { title := "B", imdbID := "a2" },
                  { title := "C", imdbID := "a3" }] 2 2 =
      .ok { favorites := [{ title := "C", imdbID := "a3" }], count := 1
            totalResults := 3, currentPage := 2, totalPages := 2 } := by
  have h := (c3_getFavorites_spec
    [{ title := "A", imdbID := "a1" }, { title := "B", imdbID := "a2" },
     { title := "C", imdbID := "a3" }] 2 2
    (by decide) (by decide) (by decide) (by decide) (by decide)).1
  rw [h]
  rw [show ((([{ title := "A", imdbID := "a1" }, { title := "B", imdbID := "a2" },
      { title := "C", imdbID := "a3" }] : List Movie).length : ℕ) : ℚ) = (3 : ℚ) by norm_num]
  rw [show (⌈(3 : ℚ) / (2 : ℚ)⌉ : ℤ) = (2 : ℤ) by
    rw [Int.ceil_eq_iff]
    norm_num]
  decide

/-- C4: the Search Gateway maps a provider "no results" response (`Response
=== "False"` or a truthy `Error`) to an empty result — not an error — and
signals exactly three error kinds: timeout (`ECONNABORTED`) maps to the
gateway-timeout error, provider auth failure (HTTP 401) to the
invalid-credential error, and any other failure to the generic external
failure. -/
theorem c4_omdb_gateway_spec (data : OmdbSearchResponse)
    (code : Option String) (status : Option Nat) :
    ((data.Response = "False" ∨ jsTruthyStr data.Error = true) →
      omdbSearch (.ok data) = .ok { movies := [], totalResults := "0" }) ∧
    (code = some "ECONNABORTED" →
      omdbSearch (.error (.axiosError code status)) =
        .error .externalApiTimeout) ∧
    (code ≠ some "ECONNABORTED" → status = some 401 →
      omdbSearch (.error (.axiosError code status)) = .error .invalidApiKey) ∧
    (code ≠ some "ECONNABORTED" → status ≠ some 401 →
      omdbSearch (.error (.axiosError code status)) =
        .error .externalApiFailure) ∧
    omdbSearch (.error .otherError) = .error .externalApiFailure := by
  refine ⟨?_, ?_, ?_, ?_, rfl⟩
  · intro h
    simp only [omdbSearch]
    rw [if_pos h]
  · intro hc
    simp only [omdbSearch, handleError]
    rw [if_pos hc]
  · intro hc hs
    simp only [omdbSearch, handleError]
    rw [if_neg hc, if_pos hs]
  · intro hc hs
    simp only [omdbSearch, handleError]
    rw [if_neg hc, if_neg hs]

/-- C4, witness: the "no results" response for a nonsense query and one
concrete error of each kind. -/
theorem c4_witness :
    omdbSearch (.ok { Response := "False", Error := some "Movie not found!" }) =
      .ok { movies := [], totalResults := "0" } ∧
    omdbSearch (.error (.axiosError (some "ECONNABORTED") none)) =
      .error .externalApiTimeout ∧
    omdbSearch (.error (.axiosError none (some 401))) = .error .invalidApiKey ∧
    omdbSearch (.error (.axiosError none (some 500))) =
      .error .externalApiFailure :=
  ⟨(c4_omdb_gateway_spec { Response := "False", Error := some "Movie not found!" }
      none none).1 (Or.inl rfl),
   (c4_omdb_gateway_spec { Response := "True" } (some "ECONNABORTED") none).2.1 rfl,
   (c4_omdb_gateway_spec { Response := "True" } none (some 401)).2.2.1
     (by decide) rfl,
   (c4_omdb_gateway_spec { Response := "True" } none (some 500)).2.2.2.1
     (by decide) (by decide)⟩

/-- C8: for every movie accepted into favorites through the REST boundary
(`CreateMovieDto.toDomain` then `addToFavorites`), the persisted record has
`title` and `imdbID` trimmed, `year`/`poster` as given with absent values
replaced by the empty string, and carries no `isFavorite` value. -/
theorem c8_persisted_record_spec (favorites : List Movie)
    (dto : CreateMovieDto) (saved : Movie) (s : List Movie)
    (hok : addToFavorites favorites (toDomain dto) = .ok (saved, s)) :
    saved.title = jsTrim dto.title ∧
    saved.imdbID = jsTrim dto.imdbID ∧
    saved.year = some (jsOrString dto.year "") ∧
    saved.poster = some (jsOrString dto.poster "") ∧
    saved.isFavorite = none ∧
    s = favorites ++ [saved] := by
  rw [addToFavorites_ok_iff] at hok
  obtain ⟨-, -, -, hsaved, hs⟩ := hok
  subst hsaved
  exact ⟨rfl, rfl, rfl, rfl, rfl, hs⟩

/-- C8, witness: a DTO with padded title and id, absent `year`, empty-string
`poster` and a stray `isFavorite := true` that is not persisted. -/
theorem c8_witness :
    (movieToSave (toDomain { title := " T ", imdbID := " id1 ", year := none, poster := some "", isFavorite := some true })).title =
      jsTrim " T " ∧
    (movieToSave (toDomain { title := " T ", imdbID := " id1 ", year := none, poster := some "", isFavorite := some true })).imdbID =
      jsTrim " id1 " ∧
    (movieToSave (toDomain { title := " T ", imdbID := " id1 ", year := none, poster := some "", isFavorite := some true })).year =
      some (jsOrString none "") ∧
    (movieToSave (toDomain { title := " T ", imdbID := " id1 ", year := none, poster := some "", isFavorite := some true })).poster =
      some (jsOrString (some "") "") ∧
    (movieToSave (toDomain { title := " T ", imdbID := " id1 ", year := none, poster := some "", isFavorite := some true })).isFavorite = none ∧
    [movieToSave (toDomain { title := " T ", imdbID := " id1 ", year := none, poster := some "", isFavorite := some true })] =
      [] ++ [movieToSave (toDomain { title := " T ", imdbID := " id1 ", year := none, poster := some "", isFavorite := some true })] :=
  c8_persisted_record_spec [] { title := " T ", imdbID := " id1 ", year := none, poster := some "", isFavorite := some true }
    (movieToSave (toDomain { title := " T ", imdbID := " id1 ", year := none, poster := some "", isFavorite := some true }))
    [movieToSave (toDomain { title := " T ", imdbID := " id1 ", year := none, poster := some "", isFavorite := some true })]
    (by decide)

/-- C9, counterexample.  On malformed durable data that is valid JSON but
not an array, `loadFromFile` degrades to the empty collection but does
*not* re-persist it: the write-back claimed by the spec never happens (a
write happens only when the file is absent). -/
theorem c9_counterexample :
    (loadFromFile .parsedNonArray).1 = [] ∧
    ¬ (loadFromFile .parsedNonArray).2 = true := by
  decide

/-- C9, amended: malformed durable data is not an error — unparseable
content or a non-array document degrades to the empty collection, an array
keeps exactly its well-formed movie records — but no re-persist happens in
any of these cases; the empty collection is written back only when the
medium is absent. -/
theorem c9_load_self_heal_spec (items : List StoredItem) :
    loadFromFile .unparseable = ([], false) ∧
    loadFromFile .parsedNonArray = ([], false) ∧
    loadFromFile (.parsedArray items) =
      (items.filterMap fun it =>
        match it with
        | .valid m => some m
        | .invalid => none, false) ∧
    loadFromFile .absent = ([], true) :=
  ⟨rfl, rfl, rfl, rfl⟩

end MovieSearch
